import Mathlib

/-
Verification of the mp4 box codec and writer sources (`src/types.rs`,
`src/writer.rs`, `src/mp4box/{hvc1,opus,sidx,stsd}.rs`) against their
natural-language specification.  Rust machine integers are modelled as `Nat`
(with explicit `% 2 ^ w` where a cast truncates, and `Int` with `% 2 ^ 16`
for the one signed field written to the wire); byte streams are lists of
bytes for serializers and a position-indexed byte map for the seekable
writer; fallible code returns `Except Mp4Error`; a Rust panic is `none`.
-/

namespace Mp4

/-- Error kinds of the library (§7 of the specification), restricted to the
variants raised by the verified code paths: `InvalidData` with its static
message, `TrakNotFound` with the track id, and `ioError` standing for the
`IoError(UnexpectedEof)` that a read past the end of the input raises. -/
inductive Mp4Error where
  | invalidData (msg : String)
  | trakNotFound (trackId : Nat)
  | ioError
  deriving DecidableEq, Repr

instance {ε α : Type} [DecidableEq ε] [DecidableEq α] : DecidableEq (Except ε α) :=
  fun x y =>
    match x, y with
    | .ok a, .ok b =>
      if h : a = b then isTrue (by rw [h])
      else isFalse (by intro hh; cases hh; exact h rfl)
    | .error a, .error b =>
      if h : a = b then isTrue (by rw [h])
      else isFalse (by intro hh; cases hh; exact h rfl)
    | .ok _, .error _ => isFalse (by intro hh; cases hh)
    | .error _, .ok _ => isFalse (by intro hh; cases hh)

/-- Big-endian bytes of a 16-bit value, as emitted by `write_u16::<BigEndian>`. -/
def u16BE (v : Nat) : List Nat := [v / 2 ^ 8 % 256, v % 256]

/-- Big-endian bytes of a 32-bit value, as emitted by `write_u32::<BigEndian>`. -/
def u32BE (v : Nat) : List Nat :=
  [v / 2 ^ 24 % 256, v / 2 ^ 16 % 256, v / 2 ^ 8 % 256, v % 256]

/-- Big-endian bytes of a 48-bit value, as emitted by `write_u48::<BigEndian>`. -/
def u48BE (v : Nat) : List Nat :=
  [v / 2 ^ 40 % 256, v / 2 ^ 32 % 256, v / 2 ^ 24 % 256,
   v / 2 ^ 16 % 256, v / 2 ^ 8 % 256, v % 256]

/-- Big-endian bytes of a 64-bit value, as emitted by `write_u64::<BigEndian>`. -/
def u64BE (v : Nat) : List Nat :=
  [v / 2 ^ 56 % 256, v / 2 ^ 48 % 256, v / 2 ^ 40 % 256, v / 2 ^ 32 % 256,
   v / 2 ^ 24 % 256, v / 2 ^ 16 % 256, v / 2 ^ 8 % 256, v % 256]

/-- Big-endian bytes of a signed 16-bit value (two's complement), as emitted
by `write_i16::<BigEndian>`. -/
def i16BE (v : Int) : List Nat := u16BE (v % 2 ^ 16).toNat

/-- Big-endian value of a byte list, most significant byte first. -/
def beVal (l : List Nat) : Nat := l.foldl (fun a b => a * 256 + b % 256) 0

/- ## sidx segment references (`src/mp4box/sidx.rs`) -/

/-- One `sidx` segment reference (`src/mp4box/sidx.rs` lines 19-27). -/
structure Segment where
  reference_type : Bool
  reference_size : Nat
  subsegment_duration : Nat
  starts_with_sap : Bool
  sap_type : Nat
  sap_delta_time : Nat
  deriving DecidableEq, Repr

/-- Decoding of one segment reference from its three 32-bit words, after
`Segment::read` (`src/mp4box/sidx.rs` lines 174-191).  The source computes
`(sap & 0x70000000 >> 28) as u8`; Rust's `>>` binds tighter than `&`, so the
mask is `0x70000000 >> 28`, and the `as u8` cast is the trailing `% 256`. -/
def Segment.read (reference subsegment_duration sap : Nat) : Segment :=
  { reference_type := reference >>> 31 == 1
    reference_size := reference &&& 0x7FFFFFFF
    subsegment_duration := subsegment_duration
    starts_with_sap := sap >>> 31 == 1
    sap_type := (sap &&& (0x70000000 >>> 28)) % 256
    sap_delta_time := sap &&& 0x0FFFFFFF }

/- ## Enumerations of `src/types.rs` -/

/-- The `SampleFreqIndex` enumeration (`src/types.rs` lines 483-498). -/
inductive SampleFreqIndex where
  | freq96000 | freq88200 | freq64000 | freq48000 | freq44100 | freq32000
  | freq24000 | freq22050 | freq16000 | freq12000 | freq11025 | freq8000
  | freq7350
  deriving DecidableEq, Repr

/-- The impl of `TryFrom<u32> for SampleFreqIndex` (`src/types.rs` lines
522-542), literal for literal; the first arm matches `9600`, not `96000`. -/
def SampleFreqIndex.tryFromU32 (value : Nat) : Except Mp4Error SampleFreqIndex :=
  match value with
  | 9600 => .ok .freq96000
  | 88200 => .ok .freq88200
  | 64000 => .ok .freq64000
  | 48000 => .ok .freq48000
  | 44100 => .ok .freq44100
  | 32000 => .ok .freq32000
  | 24000 => .ok .freq24000
  | 22050 => .ok .freq22050
  | 16000 => .ok .freq16000
  | 12000 => .ok .freq12000
  | 11025 => .ok .freq11025
  | 8000 => .ok .freq8000
  | 7350 => .ok .freq7350
  | _ => .error (.invalidData "invalid sampling frequency index")

/-- The `AvcProfile` enumeration (`src/types.rs` lines 297-305). -/
inductive AvcProfile where
  | avcConstrainedBaseline | avcBaseline | avcMain | avcExtended | avcHigh
  deriving DecidableEq, Repr

/-- The impl of `TryFrom<(u8, u8)> for AvcProfile` (`src/types.rs` lines
307-321): `value.0` is the profile byte, and `constraint_set1_flag` is
computed as `(value.1 & 0x40) >> 7`; the match arms are tried in order. -/
def AvcProfile.tryFromPair (profile constraintByte : Nat) : Except Mp4Error AvcProfile :=
  let constraint_set1_flag := (constraintByte &&& 0x40) >>> 7
  if profile = 66 ∧ constraint_set1_flag = 1 then .ok .avcConstrainedBaseline
  else if profile = 66 ∧ constraint_set1_flag = 0 then .ok .avcBaseline
  else if profile = 77 then .ok .avcMain
  else if profile = 88 then .ok .avcExtended
  else if profile = 100 then .ok .avcHigh
  else .error (.invalidData "unsupported avc profile")

/- ## Mp4Sample equality (`src/types.rs`) -/

/-- The `Mp4Sample` record (`src/types.rs` lines 896-903); `bytes` is the
sample payload. -/
structure Mp4Sample where
  start_time : Nat
  duration : Nat
  rendering_offset : Int
  is_sync : Bool
  bytes : List Nat
  deriving DecidableEq, Repr

/-- The impl of `PartialEq for Mp4Sample` (`src/types.rs` lines 913-921): it
compares the four metadata fields and only the length of `bytes`. -/
def Mp4Sample.eqImpl (a b : Mp4Sample) : Bool :=
  a.start_time == b.start_time && a.duration == b.duration
    && a.rendering_offset == b.rendering_offset && a.is_sync == b.is_sync
    && a.bytes.length == b.bytes.length

/- ## The writer façade (`src/writer.rs`) -/

/-- The track-level configuration passed to `Mp4Writer::add_track`.
Modelled from the spec: `TrackConfig` lives in `src/track.rs`, which is not
among the sources; per §4.4-§4.5 it carries an optional `track_id` and the
media timescale (its remaining media fields do not influence the verified
writer paths). -/
structure TrackConfig where
  track_id : Option Nat
  timescale : Nat
  deriving DecidableEq, Repr

/-- Modelled from the spec: `Mp4TrackWriter` (`src/track.rs` is not among the
sources).  Per §4.4 its state includes the media timescale and
`duration_in_media_timescale`; only these and the id matter to the verified
writer paths. -/
structure Mp4TrackWriter where
  track_id : Nat
  timescale : Nat
  duration : Nat
  deriving DecidableEq, Repr

/-- Modelled from the spec: `Mp4TrackWriter::new(track_id, config)` records
the id and the config's media timescale and starts with duration 0; the spec
mentions no failure, so it is modelled as total. -/
def Mp4TrackWriter.new (trackId : Nat) (config : TrackConfig) : Mp4TrackWriter :=
  { track_id := trackId, timescale := config.timescale, duration := 0 }

/-- Modelled from the spec (§4.4 step 5 and §4.5): `Mp4TrackWriter::write_sample`
adds the sample's duration to `duration_in_media_timescale` and hands the
track duration back converted to the movie timescale
(`track_duration_in_mvhd_timescale`). -/
def Mp4TrackWriter.writeSample (t : Mp4TrackWriter) (sampleDur movieTimescale : Nat) :
    Nat × Mp4TrackWriter :=
  let t' := { t with duration := t.duration + sampleDur }
  (t'.duration * movieTimescale / t'.timescale, t')

/-- Lookup in the writer's track map, `HashMap::get` on the association-list
model (keys are kept distinct by `insertTrack`). -/
def lookupTrack : List (Nat × Mp4TrackWriter) → Nat → Option Mp4TrackWriter
  | [], _ => none
  | (k, v) :: rest, id => if k = id then some v else lookupTrack rest id

/-- The writer's `HashMap::insert`: stores the value under the key, replacing
and returning any previous value for that key. -/
def insertTrack : List (Nat × Mp4TrackWriter) → Nat → Mp4TrackWriter →
    Option Mp4TrackWriter × List (Nat × Mp4TrackWriter)
  | [], id, v => (none, [(id, v)])
  | (k, w) :: rest, id, v =>
    if k = id then (some w, (id, v) :: rest)
    else
      let r := insertTrack rest id v
      (r.1, (k, w) :: r.2)

/-- The `Mp4Writer` state (`src/writer.rs` lines 18-25) restricted to the
fields the verified paths touch: the track map, the movie timescale and the
running movie duration (the underlying byte sink and `mdat_pos` are modelled
separately for `update_mdat_size`). -/
structure Mp4Writer where
  tracks : List (Nat × Mp4TrackWriter)
  timescale : Nat
  duration : Nat
  deriving DecidableEq, Repr

/-- The function `Mp4Writer::add_track` (`src/writer.rs` lines 90-104): the id
is the config's, or `self.tracks.len() as u32 + 1` when absent — the cast
truncates to 32 bits and the u32 addition wraps, hence the two `% 2 ^ 32`;
the track writer is created and inserted, and only then is a previous
occupant of the id turned into the duplicate error.  Mutation of `self`
becomes the returned writer. -/
def Mp4Writer.addTrack (w : Mp4Writer) (config : TrackConfig) :
    Except Mp4Error Nat × Mp4Writer :=
  let track_id := match config.track_id with
    | some id => id
    | none => (w.tracks.length % 2 ^ 32 + 1) % 2 ^ 32
  let track := Mp4TrackWriter.new track_id config
  let r := insertTrack w.tracks track_id track
  match r.1 with
  | some _ => (.error (.invalidData "track_id already exists"), { w with tracks := r.2 })
  | none => (.ok track_id, { w with tracks := r.2 })

/-- The function `Mp4Writer::update_durations` (`src/writer.rs` lines 118-122):
the movie duration becomes the larger of itself and the track duration. -/
def Mp4Writer.updateDurations (w : Mp4Writer) (trackDur : Nat) : Mp4Writer :=
  if trackDur > w.duration then { w with duration := trackDur } else w

/-- The function `Mp4Writer::write_sample` (`src/writer.rs` lines 124-138)
restricted to the state above: id 0 and unknown ids give `TrakNotFound`;
otherwise the track writer consumes the sample (whose payload goes to the
byte sink, not modelled here) and the movie duration is updated. -/
def Mp4Writer.writeSample (w : Mp4Writer) (trackId sampleDur : Nat) :
    Except Mp4Error Mp4Writer :=
  if trackId = 0 then .error (.trakNotFound trackId)
  else
    match lookupTrack w.tracks trackId with
    | none => .error (.trakNotFound trackId)
    | some t =>
      let r := t.writeSample sampleDur w.timescale
      let w1 : Mp4Writer := { w with tracks := (insertTrack w.tracks trackId r.2).2 }
      .ok (w1.updateDurations r.1)

/-- A trace of `write_sample` calls, each a pair of track id and sample
duration, threaded through the writer. -/
def Mp4Writer.runSamples (w : Mp4Writer) : List (Nat × Nat) → Except Mp4Error Mp4Writer
  | [] => .ok w
  | (tid, d) :: ops =>
    match w.writeSample tid d with
    | .error e => .error e
    | .ok w1 => w1.runSamples ops

/-- The mvhd fields serialized by a full box (version, timescale, duration). -/
structure MvhdBox where
  version : Nat
  timescale : Nat
  duration : Nat
  deriving DecidableEq, Repr

/-- The mvhd produced by `Mp4Writer::write_end` (`src/writer.rs` lines
156-171): `MvhdBox::default()` has version 0 (modelled from the spec, mvhd.rs
is not among the sources), the timescale and duration are copied from the
writer and the version becomes 1 when the duration exceeds `u32::MAX`. -/
def Mp4Writer.writeEndMvhd (w : Mp4Writer) : MvhdBox :=
  { version := if w.duration > 2 ^ 32 - 1 then 1 else 0
    timescale := w.timescale
    duration := w.duration }

/-- Specification side of C5: the sequence of per-track durations in the
movie timescale handed back by the successive `write_sample` calls of a
trace (empty once a call would fail). -/
def callDurations (movieTimescale : Nat) :
    List (Nat × Mp4TrackWriter) → List (Nat × Nat) → List Nat
  | _, [] => []
  | m, (tid, d) :: ops =>
    match lookupTrack m tid with
    | none => []
    | some t =>
      let r := t.writeSample d movieTimescale
      r.1 :: callDurations movieTimescale (insertTrack m tid r.2).2 ops

/- ## Concrete writer states used by the C2, C3 and C5 theorems -/

/-- A writer holding one track under id 1 (media timescale 1000). -/
def c2Writer : Mp4Writer :=
  { tracks := [(1, Mp4TrackWriter.new 1 ⟨some 1, 1000⟩)], timescale := 1000, duration := 0 }

/-- A config reusing the occupied id 1 with a different media timescale. -/
def c2Config : TrackConfig := { track_id := some 1, timescale := 90000 }

/-- A writer holding one track under id 5, so the maximum existing id is 5. -/
def c3Writer : Mp4Writer :=
  { tracks := [(5, Mp4TrackWriter.new 5 ⟨some 5, 1000⟩)], timescale := 1000, duration := 0 }

/-- A config with no track id, leaving the id choice to `add_track`. -/
def c3Config : TrackConfig := { track_id := none, timescale := 600 }

/-- An empty writer (movie timescale 1000), as `write_start` leaves it. -/
def c3WriterEmpty : Mp4Writer := { tracks := [], timescale := 1000, duration := 0 }

/-- A writer with one track of media timescale 500 under id 1, movie
timescale 1000, no samples written yet. -/
def c5Writer : Mp4Writer :=
  { tracks := [(1, { track_id := 1, timescale := 500, duration := 0 })],
    timescale := 1000, duration := 0 }

/-- The state of `c5Writer` after `write_sample(1, dur = 50)`: the track has
50 media ticks and the movie duration is 100 movie ticks. -/
def c5Final : Mp4Writer :=
  { tracks := [(1, { track_id := 1, timescale := 500, duration := 50 })],
    timescale := 1000, duration := 100 }

/- ## The Opus dOps box (`src/mp4box/opus.rs`) -/

/-- The channel mapping table of a dOps box (`src/mp4box/opus.rs` lines
164-169). -/
structure ChannelMappingTable where
  stream_count : Nat
  coupled_count : Nat
  channel_mapping : List Nat
  deriving DecidableEq, Repr

/-- The `DopsBox` record (`src/mp4box/opus.rs` lines 139-148). -/
structure DopsBox where
  version : Nat
  output_channel_count : Nat
  pre_skip : Nat
  input_sample_rate : Nat
  output_gain : Int
  channel_mapping_family : Nat
  channel_mapping_table : Option ChannelMappingTable
  deriving DecidableEq, Repr

/-- The method `DopsBox::box_size` (`src/mp4box/opus.rs` lines 186-192):
`HEADER_SIZE + 11`, plus `output_channel_count + 2` when the channel mapping
family is nonzero. -/
def DopsBox.boxSize (b : DopsBox) : Nat :=
  8 + 11 + (if b.channel_mapping_family ≠ 0 then b.output_channel_count + 2 else 0)

/-- The four-character code dOps as a 32-bit big-endian integer. -/
def dOpsCC : Nat := 0x644F7073

/-- Box header serialization.  Modelled from the spec (§3, §4.1):
`BoxHeader::write` lives in `src/mp4box/mod.rs`, which is not among the
sources; it emits the 4-byte size then the 4-byte type, and when the size is
at least `2 ^ 32` it emits size 1 followed by the 8-byte largesize. -/
def boxHeaderWrite (fourcc size : Nat) : List Nat :=
  if size ≥ 2 ^ 32 then u32BE 1 ++ u32BE fourcc ++ u64BE size
  else u32BE size ++ u32BE fourcc

/-- The method `DopsBox::write_box` (`src/mp4box/opus.rs` lines 254-276) as
the list of bytes it emits; the `unwrap()` of the missing channel mapping
table is a panic, modelled as `none`. -/
def DopsBox.writeBox (b : DopsBox) : Option (List Nat) :=
  let head := boxHeaderWrite dOpsCC b.boxSize
      ++ [b.version % 256, b.output_channel_count % 256]
      ++ u16BE b.pre_skip ++ u32BE b.input_sample_rate
      ++ i16BE b.output_gain ++ [b.channel_mapping_family % 256]
  if b.channel_mapping_family ≠ 0 then
    match b.channel_mapping_table with
    | none => none
    | some t =>
      some (head ++ [t.stream_count % 256, t.coupled_count % 256]
        ++ t.channel_mapping.map (· % 256))
  else some head

/- ## The seekable byte sink of the writer (`src/writer.rs`) -/

/-- The writer's byte sink (a `Write + Seek` target such as a file or an
in-memory cursor): a position-indexed byte map plus the stream position. -/
structure ByteStream where
  data : Nat → Nat
  pos : Nat

/-- Writing one byte at the stream position, advancing it. -/
def ByteStream.writeByte (s : ByteStream) (b : Nat) : ByteStream :=
  { data := fun i => if i = s.pos then b % 256 else s.data i, pos := s.pos + 1 }

/-- The function `Seek::seek(SeekFrom::Start(p))`. -/
def ByteStream.seek (s : ByteStream) (p : Nat) : ByteStream := { s with pos := p }

/-- The function `write_u32::<BigEndian>`: four bytes, most significant
first. -/
def ByteStream.writeU32 (s : ByteStream) (v : Nat) : ByteStream :=
  (((s.writeByte (v / 2 ^ 24)).writeByte (v / 2 ^ 16)).writeByte (v / 2 ^ 8)).writeByte v

/-- The function `write_u64::<BigEndian>`: eight bytes, most significant
first. -/
def ByteStream.writeU64 (s : ByteStream) (v : Nat) : ByteStream :=
  (((((((s.writeByte (v / 2 ^ 56)).writeByte (v / 2 ^ 48)).writeByte
    (v / 2 ^ 40)).writeByte (v / 2 ^ 32)).writeByte (v / 2 ^ 24)).writeByte
    (v / 2 ^ 16)).writeByte (v / 2 ^ 8)).writeByte v

/-- The 32-bit big-endian value stored at offset `i` of a byte map. -/
def readU32BE (d : Nat → Nat) (i : Nat) : Nat :=
  d i * 2 ^ 24 + d (i + 1) * 2 ^ 16 + d (i + 2) * 2 ^ 8 + d (i + 3)

/-- The 64-bit big-endian value stored at offset `i` of a byte map. -/
def readU64BE (d : Nat → Nat) (i : Nat) : Nat :=
  d i * 2 ^ 56 + d (i + 1) * 2 ^ 48 + d (i + 2) * 2 ^ 40 + d (i + 3) * 2 ^ 32 +
    d (i + 4) * 2 ^ 24 + d (i + 5) * 2 ^ 16 + d (i + 6) * 2 ^ 8 + d (i + 7)

/-- The function `Mp4Writer::update_mdat_size` (`src/writer.rs` lines
140-154), with the locals `mdat_end = stream_position()` and
`mdat_size = mdat_end - mdat_pos` inlined: over `u32::MAX` it writes the
32-bit value 1 at `mdat_pos` and the 64-bit size at `mdat_pos + 8`,
otherwise the 32-bit size at `mdat_pos`; it then seeks back to `mdat_end`. -/
def updateMdatSize (s : ByteStream) (mdatPos : Nat) : ByteStream :=
  if s.pos - mdatPos > 2 ^ 32 - 1 then
    ((((s.seek mdatPos).writeU32 1).seek (mdatPos + 8)).writeU64
      (s.pos - mdatPos)).seek s.pos
  else
    ((s.seek mdatPos).writeU32 (s.pos - mdatPos)).seek s.pos

/-- A concrete 20-byte sink positioned at its end, for the C6 witness. -/
def c6Stream : ByteStream := { data := fun _ => 0, pos := 20 }

/- ## The HEVC hvc1 sample entry (`src/mp4box/hvc1.rs`) -/

/-- One NAL unit of an hvcC array, with its stored size field and its bytes
(the fields used by `src/mp4box/hvc1.rs`; the defining `src/mp4box/hev1.rs`
is not among the sources). -/
structure HvcCArrayNalu where
  size : Nat
  data : List Nat
  deriving DecidableEq, Repr

/-- One hvcC parameter-set array (fields used by `src/mp4box/hvc1.rs`). -/
structure HvcCArray where
  completeness : Bool
  nal_unit_type : Nat
  nalus : List HvcCArrayNalu
  deriving DecidableEq, Repr

/-- The `HvcCBox` record, with the fields `src/mp4box/hvc1.rs` reads and
writes (its defining `src/mp4box/hev1.rs` is not among the sources). -/
structure HvcCBox where
  configuration_version : Nat
  general_profile_space : Nat
  general_tier_flag : Bool
  general_profile_idc : Nat
  general_profile_compatibility_flags : Nat
  general_constraint_indicator_flag : Nat
  general_level_idc : Nat
  min_spatial_segmentation_idc : Nat
  parallelism_type : Nat
  chroma_format_idc : Nat
  bit_depth_luma_minus8 : Nat
  bit_depth_chroma_minus8 : Nat
  avg_frame_rate : Nat
  constant_frame_rate : Nat
  num_temporal_layers : Nat
  temporal_id_nested : Bool
  length_size_minus_one : Nat
  arrays : List HvcCArray
  deriving DecidableEq, Repr

/-- Modelled from the spec: `HvcCBox::default()` (hev1.rs is not among the
sources) is the derived all-zero record with no arrays. -/
def HvcCBox.zero : HvcCBox :=
  ⟨0, 0, false, 0, 0, 0, 0, 0, 0, 0, 0, 0, 0, 0, 0, false, 0, []⟩

/-- Modelled from the spec (§4.1, §4.2): `HvcCBox::box_size` (hev1.rs is not
among the sources) is `HEADER_SIZE` plus the hvcC payload: 23 fixed bytes,
then per array 3 bytes plus per NAL 2 bytes plus the NAL data. -/
def HvcCBox.boxSize (b : HvcCBox) : Nat :=
  8 + 23 + (b.arrays.map
    (fun arr => 3 + (arr.nalus.map (fun n => 2 + n.data.length)).sum)).sum

/-- The `Hvc1Box` record (`src/mp4box/hvc1.rs` lines 7-21); the two
resolutions hold the raw 16.16 fixed-point value. -/
structure Hvc1Box where
  data_reference_index : Nat
  width : Nat
  height : Nat
  horizresolution : Nat
  vertresolution : Nat
  frame_count : Nat
  depth : Nat
  hvcc : HvcCBox
  deriving DecidableEq, Repr

/-- The method `Hvc1Box::get_size` (`src/mp4box/hvc1.rs` lines 75-77):
`HEADER_SIZE + 8 + 70` plus the hvcC box size. -/
def Hvc1Box.boxSize (b : Hvc1Box) : Nat := 8 + 8 + 70 + b.hvcc.boxSize

/-- The four-character code hvc1 as a 32-bit big-endian integer. -/
def hvc1CC : Nat := 0x68766331

/-- The four-character code hvcC as a 32-bit big-endian integer. -/
def hvcCCC : Nat := 0x68766343

/-- The method `Hvc1Box::write_box` (`src/mp4box/hvc1.rs` lines 151-206) as
the list of bytes it emits: the box header with the computed size, the
78-byte visual sample entry, then — as the source comment says — the hvcC
configuration data without its header. -/
def Hvc1Box.writeBox (b : Hvc1Box) : List Nat :=
  boxHeaderWrite hvc1CC b.boxSize
    ++ u32BE 0 ++ u16BE 0 ++ u16BE b.data_reference_index
    ++ u32BE 0 ++ u64BE 0 ++ u32BE 0
    ++ u16BE b.width ++ u16BE b.height
    ++ u32BE b.horizresolution ++ u32BE b.vertresolution
    ++ u32BE 0 ++ u16BE b.frame_count
    ++ List.replicate 32 0
    ++ u16BE b.depth ++ i16BE (-1)
    ++ [b.hvcc.configuration_version % 256]
    ++ [(((b.hvcc.general_profile_space &&& 0b11) <<< 6) |||
         ((if b.hvcc.general_tier_flag then 1 else 0) <<< 5) |||
         (b.hvcc.general_profile_idc &&& 0b11111)) % 256]
    ++ u32BE b.hvcc.general_profile_compatibility_flags
    ++ u48BE b.hvcc.general_constraint_indicator_flag
    ++ [b.hvcc.general_level_idc % 256]
    ++ u16BE (b.hvcc.min_spatial_segmentation_idc &&& 0x0FFF)
    ++ [(b.hvcc.parallelism_type &&& 0b11) % 256]
    ++ [(b.hvcc.chroma_format_idc &&& 0b11) % 256]
    ++ [(b.hvcc.bit_depth_luma_minus8 &&& 0b111) % 256]
    ++ [(b.hvcc.bit_depth_chroma_minus8 &&& 0b111) % 256]
    ++ u16BE b.hvcc.avg_frame_rate
    ++ [(((b.hvcc.constant_frame_rate &&& 0b11) <<< 6) |||
         ((b.hvcc.num_temporal_layers &&& 0b111) <<< 3) |||
         ((if b.hvcc.temporal_id_nested then 1 else 0) <<< 2) |||
         (b.hvcc.length_size_minus_one &&& 0b11)) % 256]
    ++ [b.hvcc.arrays.length % 256]
    ++ (b.hvcc.arrays.map (fun arr =>
          [((arr.nal_unit_type &&& 0b111111) |||
            ((if arr.completeness then 1 else 0) <<< 7)) % 256]
          ++ u16BE arr.nalus.length
          ++ (arr.nalus.map (fun n => u16BE n.size ++ n.data)).flatten)).flatten

/-- Reading `n` raw bytes at a position of the input; short input raises the
I/O error, as `read_exact` does. -/
def readBytesAt (data : List Nat) (pos n : Nat) : Except Mp4Error (List Nat × Nat) :=
  if pos + n ≤ data.length then .ok ((data.drop pos).take n, pos + n)
  else .error .ioError

/-- Reading an `n`-byte big-endian unsigned value at a position of the
input, as the `read_uN::<BigEndian>` family does. -/
def readUAt (data : List Nat) (pos n : Nat) : Except Mp4Error (Nat × Nat) :=
  if pos + n ≤ data.length then .ok (beVal ((data.drop pos).take n), pos + n)
  else .error .ioError

/-- Box header parsing.  Modelled from the spec (§3): `BoxHeader::read`
(`src/mp4box/mod.rs` is not among the sources) reads the 4-byte size and the
4-byte type; a size of 1 means the 64-bit largesize follows.  The result is
the pair (type, size) plus the position after the header. -/
def boxHeaderRead (data : List Nat) (pos : Nat) :
    Except Mp4Error ((Nat × Nat) × Nat) := do
  let (size, p1) ← readUAt data pos 4
  let (fourcc, p2) ← readUAt data p1 4
  if size = 1 then
    let (largesize, p3) ← readUAt data p2 8
    return ((fourcc, largesize), p3)
  else
    return ((fourcc, size), p2)

/-- Modelled from the spec (§4.2): the NAL units of one hvcC array, each a
16-bit size followed by that many bytes. -/
def readNalus (data : List Nat) : Nat → Nat → Except Mp4Error (List HvcCArrayNalu × Nat)
  | pos, 0 => .ok ([], pos)
  | pos, c + 1 => do
    let (sz, p) ← readUAt data pos 2
    let (bytes, p) ← readBytesAt data p sz
    let (rest, pEnd) ← readNalus data p c
    return (⟨sz, bytes⟩ :: rest, pEnd)

/-- Modelled from the spec (§4.2): the hvcC parameter-set arrays, each a
packed completeness/NAL-unit-type byte, a 16-bit NAL count and the NALs. -/
def readHvcCArrays (data : List Nat) : Nat → Nat → Except Mp4Error (List HvcCArray × Nat)
  | pos, 0 => .ok ([], pos)
  | pos, c + 1 => do
    let (b, p) ← readUAt data pos 1
    let (numNalus, p) ← readUAt data p 2
    let (nalus, p) ← readNalus data p numNalus
    let (rest, pEnd) ← readHvcCArrays data p c
    return ({ completeness := b >>> 7 == 1, nal_unit_type := b &&& 0x3F,
              nalus := nalus } :: rest, pEnd)

/-- Modelled from the spec (§4.2): `HvcCBox::read_box` (hev1.rs is not among
the sources) decodes the 23 fixed payload bytes with their bit-packed
fields, then the arrays, and skips to the end of the box. -/
def HvcCBox.readBox (data : List Nat) (pos size : Nat) :
    Except Mp4Error (HvcCBox × Nat) := do
  let start := pos - 8
  let (configuration_version, p) ← readUAt data pos 1
  let (b1, p) ← readUAt data p 1
  let (general_profile_compatibility_flags, p) ← readUAt data p 4
  let (general_constraint_indicator_flag, p) ← readUAt data p 6
  let (general_level_idc, p) ← readUAt data p 1
  let (msm, p) ← readUAt data p 2
  let (pt, p) ← readUAt data p 1
  let (cf, p) ← readUAt data p 1
  let (bdl, p) ← readUAt data p 1
  let (bdc, p) ← readUAt data p 1
  let (avg_frame_rate, p) ← readUAt data p 2
  let (packed, p) ← readUAt data p 1
  let (num_arrays, p) ← readUAt data p 1
  let (arrays, _) ← readHvcCArrays data p num_arrays
  return ({ configuration_version := configuration_version
            general_profile_space := b1 >>> 6
            general_tier_flag := (b1 >>> 5) &&& 1 == 1
            general_profile_idc := b1 &&& 0b11111
            general_profile_compatibility_flags := general_profile_compatibility_flags
            general_constraint_indicator_flag := general_constraint_indicator_flag
            general_level_idc := general_level_idc
            min_spatial_segmentation_idc := msm &&& 0x0FFF
            parallelism_type := pt &&& 0b11
            chroma_format_idc := cf &&& 0b11
            bit_depth_luma_minus8 := bdl &&& 0b111
            bit_depth_chroma_minus8 := bdc &&& 0b111
            avg_frame_rate := avg_frame_rate
            constant_frame_rate := packed >>> 6
            num_temporal_layers := (packed >>> 3) &&& 0b111
            temporal_id_nested := (packed >>> 2) &&& 1 == 1
            length_size_minus_one := packed &&& 0b11
            arrays := arrays }, start + size)

/-- The method `Hvc1Box::read_box` (`src/mp4box/hvc1.rs` lines 102-149):
from just after the 8-byte box header it consumes the 78-byte visual sample
entry, then expects a box header; an inner size larger than the hvc1 size is
an error, a type other than hvcC is the "hvcc not found" error, and
otherwise the hvcC box is read and the reader skips to the end. -/
def Hvc1Box.readBox (data : List Nat) (pos size : Nat) : Except Mp4Error Hvc1Box := do
  let start := pos - 8
  let (_, p) ← readUAt data pos 4
  let (_, p) ← readUAt data p 2
  let (data_reference_index, p) ← readUAt data p 2
  let (_, p) ← readUAt data p 4
  let (_, p) ← readUAt data p 8
  let (_, p) ← readUAt data p 4
  let (width, p) ← readUAt data p 2
  let (height, p) ← readUAt data p 2
  let (horizresolution, p) ← readUAt data p 4
  let (vertresolution, p) ← readUAt data p 4
  let (_, p) ← readUAt data p 4
  let (frame_count, p) ← readUAt data p 2
  let p := p + 32
  let (depth, p) ← readUAt data p 2
  let (_, p) ← readUAt data p 2
  let (header, p) ← boxHeaderRead data p
  if header.2 > size then
    .error (.invalidData "hev1 box contains a box with a larger size than it")
  else if header.1 = hvcCCC then do
    let (hvcc, _) ← HvcCBox.readBox data p header.2
    let _ := start + size
    return { data_reference_index := data_reference_index
             width := width
             height := height
             horizresolution := horizresolution
             vertresolution := vertresolution
             frame_count := frame_count
             depth := depth
             hvcc := hvcc }
  else
    .error (.invalidData "hvcc not found")

/-- The `Hvc1Box` of the module's own test `test_hvc1` (`src/mp4box/hvc1.rs`
lines 216-228): the default hvcC with configuration version 1 and the raw
16.16 resolution `0x48 << 16`. -/
def c1TestBox : Hvc1Box :=
  { data_reference_index := 1
    width := 320
    height := 240
    horizresolution := 0x48 * 0x10000
    vertresolution := 0x48 * 0x10000
    frame_count := 1
    depth := 24
    hvcc := { HvcCBox.zero with configuration_version := 1 } }

end Mp4

namespace Mp4

/- ## Theorems -/

/-- Helper: the source's `(value.1 & 0x40) >> 7` is zero for every `Nat`. -/
theorem and_x40_shiftRight_seven (b : Nat) : (b &&& 0x40) >>> 7 = 0 := by
  have hle : b &&& 0x40 ≤ 0x40 := Nat.and_le_right
  have hlt : b &&& 0x40 < 2 ^ 7 := lt_of_le_of_lt hle (by norm_num)
  simpa [Nat.shiftRight_eq_div_pow] using Nat.div_eq_of_lt hlt

/-- C4: for every 32-bit word `sap` read as the third field of a sidx segment
reference, `Segment::read` produces `sap_type = sap & 0x7` (the low three
bits, inside the `sap_delta_time` field), and this differs from the intended
`(sap >> 28) & 0x7` at the word `0x70000000`. -/
theorem c4_segment_read_sap_type :
    (∀ reference dur sap : Nat,
        (Segment.read reference dur sap).sap_type = sap &&& 0x7) ∧
    (Segment.read 0 0 0x70000000).sap_type ≠ (0x70000000 >>> 28) &&& 0x7 := by
  have hmask : (0x70000000 : Nat) >>> 28 = 7 := by
    norm_num [Nat.shiftRight_eq_div_pow]
  constructor
  · intro reference dur sap
    show (sap &&& (0x70000000 >>> 28)) % 256 = sap &&& 7
    rw [hmask]
    exact Nat.mod_eq_of_lt (lt_of_le_of_lt Nat.and_le_right (by norm_num))
  · decide

/-- C7: `SampleFreqIndex::try_from::<u32>` maps the input `9600` to
`Freq96000`, rejects the input `96000` with
`InvalidData("invalid sampling frequency index")`, and maps every other
listed frequency to its matching variant. -/
theorem c7_sample_freq_index_from_u32 :
    SampleFreqIndex.tryFromU32 9600 = .ok .freq96000 ∧
    SampleFreqIndex.tryFromU32 96000
      = .error (.invalidData "invalid sampling frequency index") ∧
    SampleFreqIndex.tryFromU32 88200 = .ok .freq88200 ∧
    SampleFreqIndex.tryFromU32 64000 = .ok .freq64000 ∧
    SampleFreqIndex.tryFromU32 48000 = .ok .freq48000 ∧
    SampleFreqIndex.tryFromU32 44100 = .ok .freq44100 ∧
    SampleFreqIndex.tryFromU32 32000 = .ok .freq32000 ∧
    SampleFreqIndex.tryFromU32 24000 = .ok .freq24000 ∧
    SampleFreqIndex.tryFromU32 22050 = .ok .freq22050 ∧
    SampleFreqIndex.tryFromU32 16000 = .ok .freq16000 ∧
    SampleFreqIndex.tryFromU32 12000 = .ok .freq12000 ∧
    SampleFreqIndex.tryFromU32 11025 = .ok .freq11025 ∧
    SampleFreqIndex.tryFromU32 8000 = .ok .freq8000 ∧
    SampleFreqIndex.tryFromU32 7350 = .ok .freq7350 :=
  ⟨rfl, rfl, rfl, rfl, rfl, rfl, rfl, rfl, rfl, rfl, rfl, rfl, rfl, rfl⟩

/-- C8: `AvcProfile::try_from((66, b))` returns `Ok(AvcBaseline)` for every
byte `b`, and `AvcConstrainedBaseline` is returned for no input pair, because
the computed `constraint_set1_flag = (b & 0x40) >> 7` is `0` for every `b`. -/
theorem c8_avc_profile_baseline :
    (∀ b : Nat, AvcProfile.tryFromPair 66 b = .ok .avcBaseline) ∧
    (∀ p b : Nat, AvcProfile.tryFromPair p b ≠ .ok .avcConstrainedBaseline) := by
  constructor
  · intro b
    simp [AvcProfile.tryFromPair, and_x40_shiftRight_seven]
  · intro p b h
    simp only [AvcProfile.tryFromPair, and_x40_shiftRight_seven] at h
    split_ifs at h with h1 h2 h3 h4 h5 <;> simp_all

/-- C9: two `Mp4Sample` values with equal metadata whose payloads have equal
length compare equal under the source's `PartialEq`, and the comparison never
inspects the bytes beyond their length: replacing a payload by any list of
the same length leaves the comparison's result unchanged. -/
theorem c9_mp4sample_eq_ignores_bytes :
    (∀ a b : Mp4Sample,
        a.start_time = b.start_time → a.duration = b.duration →
        a.rendering_offset = b.rendering_offset → a.is_sync = b.is_sync →
        a.bytes.length = b.bytes.length → Mp4Sample.eqImpl a b = true) ∧
    (∀ a b : Mp4Sample, ∀ c : List Nat, c.length = a.bytes.length →
        Mp4Sample.eqImpl { a with bytes := c } b = Mp4Sample.eqImpl a b) := by
  constructor
  · intro a b h1 h2 h3 h4 h5
    simp [Mp4Sample.eqImpl, h1, h2, h3, h4, h5]
  · intro a b c hc
    simp [Mp4Sample.eqImpl, hc]

/-- C9 witness: two concrete samples with identical metadata and distinct
two-byte payloads compare equal. -/
theorem c9_witness :
    Mp4Sample.eqImpl ⟨0, 10, 0, true, [1, 2]⟩ ⟨0, 10, 0, true, [3, 4]⟩ = true ∧
    ([1, 2] : List Nat) ≠ [3, 4] :=
  ⟨c9_mp4sample_eq_ignores_bytes.1 ⟨0, 10, 0, true, [1, 2]⟩ ⟨0, 10, 0, true, [3, 4]⟩
      rfl rfl rfl rfl rfl,
    by decide⟩

/-- Helper: the value returned by the map insertion is the previous occupant
of the key. -/
theorem insertTrack_fst (m : List (Nat × Mp4TrackWriter)) (id : Nat) (v : Mp4TrackWriter) :
    (insertTrack m id v).1 = lookupTrack m id := by
  induction m with
  | nil => rfl
  | cons kv rest ih =>
    obtain ⟨k, w⟩ := kv
    by_cases h : k = id <;> simp [insertTrack, lookupTrack, h, ih]

/-- Helper: after the map insertion, the key holds the inserted value. -/
theorem lookupTrack_insertTrack (m : List (Nat × Mp4TrackWriter)) (id : Nat)
    (v : Mp4TrackWriter) : lookupTrack (insertTrack m id v).2 id = some v := by
  induction m with
  | nil => simp [insertTrack, lookupTrack]
  | cons kv rest ih =>
    obtain ⟨k, w⟩ := kv
    by_cases h : k = id <;> simp [insertTrack, lookupTrack, h, ih]

/-- C2 counterexample: on a writer whose id 1 is occupied by the track writer
built from timescale 1000, `add_track` with a duplicate config of timescale
90000 does return the duplicate-id error, but the map entry for id 1 has
been replaced by the track writer built from the new config, which differs
from the one registered before the call. -/
theorem c2_counterexample :
    (c2Writer.addTrack c2Config).1 = .error (.invalidData "track_id already exists") ∧
    lookupTrack (c2Writer.addTrack c2Config).2.tracks 1
      = some (Mp4TrackWriter.new 1 c2Config) ∧
    Mp4TrackWriter.new 1 c2Config ≠ Mp4TrackWriter.new 1 ⟨some 1, 1000⟩ := by
  refine ⟨rfl, rfl, ?_⟩
  decide

/-- C2 (amended): for every writer and config whose `track_id` is `Some(id)`
with `id` already in the track map, `add_track` returns
`Err(InvalidData("track_id already exists"))`, but it does not leave the map
unchanged: the entry for `id` now holds the `Mp4TrackWriter` created from
the new config. -/
theorem c2_duplicate_add_track (w : Mp4Writer) (config : TrackConfig) (id : Nat)
    (hid : config.track_id = some id)
    (hdup : (lookupTrack w.tracks id).isSome = true) :
    (w.addTrack config).1 = .error (.invalidData "track_id already exists") ∧
    lookupTrack (w.addTrack config).2.tracks id = some (Mp4TrackWriter.new id config) := by
  obtain ⟨told, hlk⟩ := Option.isSome_iff_exists.mp hdup
  have hfst : (insertTrack w.tracks id (Mp4TrackWriter.new id config)).1 = some told := by
    rw [insertTrack_fst, hlk]
  constructor
  · simp only [Mp4Writer.addTrack, hid, hfst]
  · simp only [Mp4Writer.addTrack, hid, hfst]
    exact lookupTrack_insertTrack _ _ _

/-- C2 witness: the amended statement evaluated on the concrete duplicate
insertion of `c2_counterexample`. -/
theorem c2_witness :
    (c2Writer.addTrack c2Config).1 = .error (.invalidData "track_id already exists") ∧
    lookupTrack (c2Writer.addTrack c2Config).2.tracks 1
      = some (Mp4TrackWriter.new 1 c2Config) :=
  c2_duplicate_add_track c2Writer c2Config 1 rfl (by decide)

/-- C3 counterexample: on a writer whose single track sits under id 5 (the
maximum existing id), `add_track` with no configured id returns `Ok(2)` —
the entry count plus one — not `Ok(5 + 1)` as the claim states. -/
theorem c3_counterexample :
    (c3Writer.addTrack c3Config).1 = .ok 2 ∧
    c3Writer.tracks.map Prod.fst = [5] ∧
    (Except.ok 2 : Except Mp4Error Nat) ≠ .ok (5 + 1) := by
  refine ⟨rfl, rfl, ?_⟩
  decide

/-- C3 (amended): for every writer and config whose `track_id` is `None`,
`add_track` assigns the new track the id `tracks.len() as u32 + 1` computed
in u32 arithmetic, that is `(entry count % 2 ^ 32 + 1) % 2 ^ 32` — the entry
count plus one for any map below `2 ^ 32` entries, and 1 when the map is
empty, but not in general the maximum existing id plus one — and returns
`Ok` of that id provided that id is not already a key of the map. -/
theorem c3_add_track_len_plus_one (w : Mp4Writer) (config : TrackConfig)
    (hnone : config.track_id = none)
    (hfree : lookupTrack w.tracks ((w.tracks.length % 2 ^ 32 + 1) % 2 ^ 32) = none) :
    (w.addTrack config).1 = .ok ((w.tracks.length % 2 ^ 32 + 1) % 2 ^ 32) := by
  have hfst : (insertTrack w.tracks ((w.tracks.length % 2 ^ 32 + 1) % 2 ^ 32)
      (Mp4TrackWriter.new ((w.tracks.length % 2 ^ 32 + 1) % 2 ^ 32) config)).1 = none := by
    rw [insertTrack_fst, hfree]
  simp only [Mp4Writer.addTrack, hnone, hfst]

/-- C3 witness: the amended statement on the empty writer, which receives
id 1. -/
theorem c3_witness : (c3WriterEmpty.addTrack c3Config).1 = .ok 1 :=
  c3_add_track_len_plus_one c3WriterEmpty c3Config rfl rfl

/-- Helper: `update_durations` takes the maximum of the movie duration and
the track duration and changes nothing else. -/
theorem updateDurations_spec (w : Mp4Writer) (td : Nat) :
    (w.updateDurations td).duration = Nat.max w.duration td ∧
    (w.updateDurations td).timescale = w.timescale ∧
    (w.updateDurations td).tracks = w.tracks := by
  unfold Mp4Writer.updateDurations
  split_ifs with h
  · exact ⟨(Nat.max_eq_right (Nat.le_of_lt h)).symm, rfl, rfl⟩
  · exact ⟨(Nat.max_eq_left (Nat.le_of_not_lt h)).symm, rfl, rfl⟩

/-- Helper: a successful trace leaves the movie timescale unchanged and its
final movie duration is the running maximum of the per-call track durations,
started at the initial movie duration. -/
theorem runSamples_duration (ops : List (Nat × Nat)) :
    ∀ w w' : Mp4Writer, w.runSamples ops = .ok w' →
      w'.timescale = w.timescale ∧
      w'.duration = (callDurations w.timescale w.tracks ops).foldl Nat.max w.duration := by
  induction ops with
  | nil =>
    intro w w' h
    cases h
    exact ⟨rfl, rfl⟩
  | cons op ops ih =>
    obtain ⟨tid, d⟩ := op
    intro w w' h
    by_cases h0 : tid = 0
    · simp [Mp4Writer.runSamples, Mp4Writer.writeSample, h0] at h
    cases hlk : lookupTrack w.tracks tid with
    | none => simp [Mp4Writer.runSamples, Mp4Writer.writeSample, h0, hlk] at h
    | some t =>
      have hstep : w.writeSample tid d
          = .ok (Mp4Writer.updateDurations
              { w with tracks := (insertTrack w.tracks tid (t.writeSample d w.timescale).2).2 }
              (t.writeSample d w.timescale).1) := by
        simp [Mp4Writer.writeSample, h0, hlk]
      have hrun : (Mp4Writer.updateDurations
          { w with tracks := (insertTrack w.tracks tid (t.writeSample d w.timescale).2).2 }
          (t.writeSample d w.timescale).1).runSamples ops = .ok w' := by
        simpa [Mp4Writer.runSamples, hstep] using h
      obtain ⟨hmax, hts, htr⟩ := updateDurations_spec
        { w with tracks := (insertTrack w.tracks tid (t.writeSample d w.timescale).2).2 }
        (t.writeSample d w.timescale).1
      obtain ⟨ih_ts, ih_dur⟩ := ih _ _ hrun
      constructor
      · rw [ih_ts, hts]
      · rw [ih_dur, hts, htr, hmax]
        simp [callDurations, hlk]

/-- C5: after a writer starting at movie duration 0 runs any successful trace
of `write_sample` calls, `write_end` serializes an mvhd whose duration is the
maximum over all the calls of the per-track duration in the movie timescale
(0 for the empty trace), whose timescale is the configured movie timescale,
and whose version is 1 exactly when that duration is at least `2 ^ 32`. -/
theorem c5_write_end_mvhd (w : Mp4Writer) (ops : List (Nat × Nat)) (w' : Mp4Writer)
    (hstart : w.duration = 0)
    (hrun : w.runSamples ops = .ok w') :
    w'.writeEndMvhd.duration
      = (callDurations w.timescale w.tracks ops).foldl Nat.max 0 ∧
    w'.writeEndMvhd.timescale = w.timescale ∧
    (w'.writeEndMvhd.version = 1 ↔ 2 ^ 32 ≤ w'.writeEndMvhd.duration) := by
  obtain ⟨hts, hdur⟩ := runSamples_duration ops w w' hrun
  refine ⟨?_, ?_, ?_⟩
  · show w'.duration = _
    rw [hdur, hstart]
  · show w'.timescale = _
    exact hts
  · show (if w'.duration > 2 ^ 32 - 1 then 1 else 0) = 1 ↔ 2 ^ 32 ≤ w'.duration
    split_ifs with h
    · simp only [true_iff]
      omega
    · simp only [OfNat.zero_ne_ofNat, false_iff]
      omega

/-- C5 witness: one sample of 50 media ticks on a track of media timescale
500 in a movie of timescale 1000 gives an mvhd of duration 100 and
version 0. -/
theorem c5_witness :
    c5Final.writeEndMvhd.duration
      = (callDurations c5Writer.timescale c5Writer.tracks [(1, 50)]).foldl Nat.max 0 ∧
    c5Final.writeEndMvhd.timescale = c5Writer.timescale ∧
    (c5Final.writeEndMvhd.version = 1 ↔ 2 ^ 32 ≤ c5Final.writeEndMvhd.duration) :=
  c5_write_end_mvhd c5Writer [(1, 50)] c5Final rfl (by decide)

/-- C10: `DopsBox::write_box` completes for every box satisfying the
precondition that a nonzero channel mapping family comes with a channel
mapping table, and panics (the `unwrap` of `None`) exactly when the family
is nonzero but the table is absent. -/
theorem c10_dops_write_box_panic :
    (∀ b : DopsBox,
        (b.channel_mapping_family ≠ 0 → b.channel_mapping_table.isSome = true) →
        b.writeBox.isSome = true) ∧
    (∀ b : DopsBox, b.channel_mapping_family ≠ 0 →
        b.channel_mapping_table = none → b.writeBox = none) := by
  constructor
  · intro b hpre
    unfold DopsBox.writeBox
    split_ifs with h
    · cases htab : b.channel_mapping_table with
      | none => rw [htab] at hpre; simp [h] at hpre
      | some t => simp [htab]
    · rfl
  · intro b hfam htab
    simp [DopsBox.writeBox, hfam, htab]

/-- C1: the hvc1 round-trip fails on the box of the module's own test
`test_hvc1`: `write_box` emits 109 bytes while `box_size()` reports 117 (the
8 missing bytes are the hvcC header that `write_box` omits), so the length
law fails; and parsing the serialized bytes reads the hvc1 header back but
then fails, because `read_box` expects an hvcC box header after the 78-byte
visual prefix and instead finds the raw hvcC payload, whose first four bytes
decode as the inner size 16777216 > 117. -/
theorem c1_hvc1_roundtrip_broken :
    c1TestBox.writeBox.length = 109 ∧
    c1TestBox.boxSize = 117 ∧
    boxHeaderRead c1TestBox.writeBox 0 = .ok ((hvc1CC, 117), 8) ∧
    Hvc1Box.readBox c1TestBox.writeBox 8 117
      = .error (.invalidData "hev1 box contains a box with a larger size than it") := by
  refine ⟨?_, rfl, ?_, ?_⟩ <;> decide

/-- Helper: an `ite` whose condition fails selects its else branch (a local
alias keeping the byte-map rewrites below readable). -/
theorem iteMiss {α : Type} {c : Prop} [Decidable c] (h : ¬c) (a b : α) :
    (if c then a else b) = b := if_neg h

/-- Helper: first byte written by `write_u32`. -/
theorem writeU32_data_at0 (s : ByteStream) (v : Nat) :
    (s.writeU32 v).data s.pos = v / 2 ^ 24 % 256 := by
  simp only [ByteStream.writeU32, ByteStream.writeByte]
  rw [iteMiss (by omega), iteMiss (by omega), iteMiss (by omega)]
  simp

/-- Helper: second byte written by `write_u32`. -/
theorem writeU32_data_at1 (s : ByteStream) (v : Nat) :
    (s.writeU32 v).data (s.pos + 1) = v / 2 ^ 16 % 256 := by
  simp only [ByteStream.writeU32, ByteStream.writeByte]
  rw [iteMiss (by omega), iteMiss (by omega)]
  simp

/-- Helper: third byte written by `write_u32`. -/
theorem writeU32_data_at2 (s : ByteStream) (v : Nat) :
    (s.writeU32 v).data (s.pos + 2) = v / 2 ^ 8 % 256 := by
  simp only [ByteStream.writeU32, ByteStream.writeByte]
  rw [iteMiss (by omega)]
  simp

/-- Helper: fourth byte written by `write_u32`. -/
theorem writeU32_data_at3 (s : ByteStream) (v : Nat) :
    (s.writeU32 v).data (s.pos + 3) = v % 256 := by
  simp only [ByteStream.writeU32, ByteStream.writeByte]
  simp

/-- Helper: `write_u32` leaves bytes outside its four positions unchanged. -/
theorem writeU32_data_out (s : ByteStream) (v i : Nat)
    (h : i < s.pos ∨ s.pos + 4 ≤ i) : (s.writeU32 v).data i = s.data i := by
  simp only [ByteStream.writeU32, ByteStream.writeByte]
  rw [iteMiss (by omega), iteMiss (by omega), iteMiss (by omega), iteMiss (by omega)]

/-- Helper: the byte at offset `j < 8` written by `write_u64`. -/
theorem writeU64_data_at (s : ByteStream) (v : Nat) :
    (s.writeU64 v).data s.pos = v / 2 ^ 56 % 256 ∧
    (s.writeU64 v).data (s.pos + 1) = v / 2 ^ 48 % 256 ∧
    (s.writeU64 v).data (s.pos + 2) = v / 2 ^ 40 % 256 ∧
    (s.writeU64 v).data (s.pos + 3) = v / 2 ^ 32 % 256 ∧
    (s.writeU64 v).data (s.pos + 4) = v / 2 ^ 24 % 256 ∧
    (s.writeU64 v).data (s.pos + 5) = v / 2 ^ 16 % 256 ∧
    (s.writeU64 v).data (s.pos + 6) = v / 2 ^ 8 % 256 ∧
    (s.writeU64 v).data (s.pos + 7) = v % 256 := by
  refine ⟨?_, ?_, ?_, ?_, ?_, ?_, ?_, ?_⟩ <;>
    simp only [ByteStream.writeU64, ByteStream.writeByte]
  · rw [iteMiss (by omega), iteMiss (by omega), iteMiss (by omega), iteMiss (by omega),
      iteMiss (by omega), iteMiss (by omega), iteMiss (by omega)]
    simp
  · rw [iteMiss (by omega), iteMiss (by omega), iteMiss (by omega), iteMiss (by omega),
      iteMiss (by omega), iteMiss (by omega)]
    simp
  · rw [iteMiss (by omega), iteMiss (by omega), iteMiss (by omega), iteMiss (by omega),
      iteMiss (by omega)]
    simp
  · rw [iteMiss (by omega), iteMiss (by omega), iteMiss (by omega), iteMiss (by omega)]
    simp
  · rw [iteMiss (by omega), iteMiss (by omega), iteMiss (by omega)]
    simp
  · rw [iteMiss (by omega), iteMiss (by omega)]
    simp
  · rw [iteMiss (by omega)]
    simp
  · simp

/-- Helper: `write_u64` leaves bytes outside its eight positions unchanged. -/
theorem writeU64_data_out (s : ByteStream) (v i : Nat)
    (h : i < s.pos ∨ s.pos + 8 ≤ i) : (s.writeU64 v).data i = s.data i := by
  simp only [ByteStream.writeU64, ByteStream.writeByte]
  rw [iteMiss (by omega), iteMiss (by omega), iteMiss (by omega), iteMiss (by omega),
    iteMiss (by omega), iteMiss (by omega), iteMiss (by omega), iteMiss (by omega)]

/-- Helper: a 32-bit value below `2 ^ 32` written at position `q` reads back
as itself. -/
theorem readU32BE_writeU32 (s : ByteStream) (v q : Nat) (hq : s.pos = q)
    (hv : v < 2 ^ 32) : readU32BE (s.writeU32 v).data q = v := by
  subst hq
  unfold readU32BE
  rw [writeU32_data_at0, writeU32_data_at1, writeU32_data_at2, writeU32_data_at3]
  omega

/-- Helper: a 64-bit value below `2 ^ 64` written at position `q` reads back
as itself. -/
theorem readU64BE_writeU64 (s : ByteStream) (v q : Nat) (hq : s.pos = q)
    (hv : v < 2 ^ 64) : readU64BE (s.writeU64 v).data q = v := by
  subst hq
  obtain ⟨h0, h1, h2, h3, h4, h5, h6, h7⟩ := writeU64_data_at s v
  unfold readU64BE
  rw [h0, h1, h2, h3, h4, h5, h6, h7]
  omega

/-- Helper: a `write_u64` at position `q` does not disturb a 32-bit read
whose four bytes lie outside `[q, q + 8)`. -/
theorem readU32BE_writeU64_out (s : ByteStream) (v i q : Nat) (hq : s.pos = q)
    (h : i + 4 ≤ q ∨ q + 8 ≤ i) :
    readU32BE (s.writeU64 v).data i = readU32BE s.data i := by
  subst hq
  unfold readU32BE
  rw [writeU64_data_out s v i (by omega), writeU64_data_out s v (i + 1) (by omega),
    writeU64_data_out s v (i + 2) (by omega), writeU64_data_out s v (i + 3) (by omega)]

/-- C6: when `update_mdat_size` finalizes the `mdat`, with `S` the distance
from `mdat_pos` to the current end of sample data: if `S > 2 ^ 32 - 1` the
32-bit size field at `mdat_pos` is rewritten with 1 and `S` is written as a
64-bit big-endian value at `mdat_pos + 8` (the reserved wide slot);
otherwise the 32-bit size field at `mdat_pos` is rewritten with `S`; in both
cases the stream position is restored to the former end. -/
theorem c6_update_mdat_size (s : ByteStream) (mdatPos : Nat)
    (hle : mdatPos ≤ s.pos) (hpos : s.pos < 2 ^ 64) :
    (updateMdatSize s mdatPos).pos = s.pos ∧
    (2 ^ 32 - 1 < s.pos - mdatPos →
      readU32BE (updateMdatSize s mdatPos).data mdatPos = 1 ∧
      readU64BE (updateMdatSize s mdatPos).data (mdatPos + 8) = s.pos - mdatPos) ∧
    (s.pos - mdatPos ≤ 2 ^ 32 - 1 →
      readU32BE (updateMdatSize s mdatPos).data mdatPos = s.pos - mdatPos) := by
  refine ⟨?_, fun hbig => ?_, fun hsmall => ?_⟩
  · unfold updateMdatSize
    split_ifs <;> rfl
  · have hu : updateMdatSize s mdatPos
        = ((((s.seek mdatPos).writeU32 1).seek (mdatPos + 8)).writeU64
            (s.pos - mdatPos)).seek s.pos := by
      unfold updateMdatSize
      rw [if_pos hbig]
    rw [hu]
    constructor
    · exact (readU32BE_writeU64_out (((s.seek mdatPos).writeU32 1).seek (mdatPos + 8))
          (s.pos - mdatPos) mdatPos (mdatPos + 8) rfl (Or.inl (by omega))).trans
        (readU32BE_writeU32 (s.seek mdatPos) 1 mdatPos rfl (by norm_num))
    · exact readU64BE_writeU64 (((s.seek mdatPos).writeU32 1).seek (mdatPos + 8))
        (s.pos - mdatPos) (mdatPos + 8) rfl (by omega)
  · have hu : updateMdatSize s mdatPos
        = ((s.seek mdatPos).writeU32 (s.pos - mdatPos)).seek s.pos := by
      unfold updateMdatSize
      rw [iteMiss (by omega)]
    rw [hu]
    exact readU32BE_writeU32 (s.seek mdatPos) (s.pos - mdatPos) mdatPos rfl (by omega)

/-- C6 witness: a 20-byte stream finalized with `mdat_pos = 4` keeps its
position and stores the 32-bit size 16 at offset 4. -/
theorem c6_witness :
    (updateMdatSize c6Stream 4).pos = 20 ∧
    readU32BE (updateMdatSize c6Stream 4).data 4 = 16 := by
  have h := c6_update_mdat_size c6Stream 4 (by decide) (by decide)
  exact ⟨h.1, h.2.2 (by decide)⟩

/-- C10 witness: a family-1 box with a table serializes, and the same box
without its table panics. -/
theorem c10_witness :
    (DopsBox.writeBox ⟨0, 2, 312, 48000, 0, 1, some ⟨1, 1, [0, 1]⟩⟩).isSome = true ∧
    DopsBox.writeBox ⟨0, 2, 312, 48000, 0, 1, none⟩ = none :=
  ⟨c10_dops_write_box_panic.1 ⟨0, 2, 312, 48000, 0, 1, some ⟨1, 1, [0, 1]⟩⟩
      (fun _ => rfl),
    c10_dops_write_box_panic.2 ⟨0, 2, 312, 48000, 0, 1, none⟩ (by decide) rfl⟩

end Mp4
